import Mathlib

/-!
Shallow embedding of the homework-status polling bot
(`homework.py` and `exceptions.py`) and proofs of the behavioural
claims about it.

The embedding models Python dictionaries as association lists, the
exception hierarchy of `exceptions.py` as an inductive type with a
Boolean subclass test for the `BaseAPIError` family, and each function
of `homework.py` as a Lean function returning `Except Exc _` where the
Python raises.  The environment a loop iteration interacts with (the
wall clock, the HTTP transport, the delivery of a Telegram message) is
passed in explicitly as an `Env` value.
-/

namespace HomeworkBot

/-- Exception model, following `exceptions.py` plus the two library
exceptions that can escape `get_api_answer` (`UnboundLocalError` from
the broken except-handler, and the JSON decode error raised by
`response.json()` on an invalid body). -/
inductive Exc where
  | ImproperlyConfigured : String → Exc
  | APIRequestError : String → Exc
  | ResponseTypeError : String → Exc
  | EmptyResponseError : String → Exc
  | UnboundLocalError : String → Exc
  | JSONDecodeError : String → Exc
  deriving DecidableEq, Repr

/-- `isinstance(e, BaseAPIError)`: in `exceptions.py` the subclasses of
`BaseAPIError` are exactly `APIRequestError` and `ResponseTypeError`;
`EmptyResponseError` derives from `ValueError` instead. -/
def Exc.isBaseAPIError : Exc → Bool
  | .APIRequestError _ => true
  | .ResponseTypeError _ => true
  | _ => false

/-- `isinstance(e, ResponseTypeError)`. -/
def Exc.isResponseTypeError : Exc → Bool
  | .ResponseTypeError _ => true
  | _ => false

/-- `isinstance(e, EmptyResponseError)`. -/
def Exc.isEmptyResponseError : Exc → Bool
  | .EmptyResponseError _ => true
  | _ => false

/-- A homework record: a Python dict with string keys and string values
(`homework_name`, `status`). -/
abbrev Record := List (String × String)

/-- A value stored in the top-level API response dict: the fields the
program inspects are an integer (`current_date`), a string, or a list
of homework records (`homeworks`).  A non-`vlist` value under
`homeworks` models the "not a list" shape violation. -/
inductive RVal where
  | vint : Int → RVal
  | vstr : String → RVal
  | vlist : List Record → RVal
  deriving DecidableEq, Repr

/-- `type(v) is list`. -/
def RVal.isList : RVal → Bool
  | .vlist _ => true
  | _ => false

/-- The parsed JSON body of an API response, as a Python dict. -/
abbrev Response := List (String × RVal)

/-- Python dict lookup `d[k]` (as an `Option`; `none` models `KeyError`
and also decides `k in d`). -/
def lookup {α : Type} (d : List (String × α)) (k : String) : Option α :=
  (d.find? (fun p => p.1 == k)).map (fun p => p.2)

/-- The `HOMEWORK_VERDICTS` table of `homework.py`. -/
def HOMEWORK_VERDICTS : List (String × String) :=
  [("approved", "Работа проверена: ревьюеру всё понравилось. Ура!"),
   ("reviewing", "Работа взята на проверку ревьюером."),
   ("rejected", "Работа проверена: у ревьюера есть замечания.")]

/-- `RETRY_PERIOD` constant of `homework.py`. -/
def RETRY_PERIOD : Nat := 600

/-- Python truthiness of an optional credential string: `None` and the
empty string are falsy. -/
def truthy : Option String → Bool
  | Option.none => false
  | some s => !(s == "")

/-- `check_tokens()`: raises `ImproperlyConfigured` unless all three
credentials are truthy. -/
def check_tokens (practicumToken telegramToken telegramChatId : Option String) :
    Except Exc Unit :=
  if truthy practicumToken && truthy telegramToken && truthy telegramChatId then
    .ok ()
  else
    .error (.ImproperlyConfigured "Required tokens are missing in .env file.")

/-- A log line emitted through the module logger. -/
inductive LogEvent where
  | debug : String → LogEvent
  | error : String → LogEvent
  | critical : String → LogEvent
  deriving DecidableEq, Repr

/-- Result of one `send_message` call: whether an exception escaped the
function, and the log line it emitted. -/
structure SendResult where
  raised : Bool
  log : LogEvent
  deriving DecidableEq, Repr

/-- `send_message(bot, message)`: `deliveryOk` is whether the
underlying `bot.send_message` call succeeds.  The function catches
every exception of the delivery attempt, so nothing ever escapes. -/
def send_message (deliveryOk : Bool) (message : String) : SendResult :=
  if deliveryOk then
    { raised := false, log := .debug ("Message sent: " ++ message) }
  else
    { raised := false, log := .error "Can not send message" }

/-- Outcome of the `requests.get` call and body parse inside
`get_api_answer`: either the transport raises `requests.RequestException`,
or a response arrives with a status code and a body (`none` when the
body is not valid JSON, making `response.json()` raise). -/
inductive HttpResult where
  | transportFailure : HttpResult
  | response : Nat → Option Response → HttpResult
  deriving DecidableEq, Repr

set_option linter.unusedVariables false in
/-- `get_api_answer(timestamp)`.  The `timestamp` is sent as the
`from_date` query parameter; the transport outcome is the `http`
argument.  On a transport failure the source's except-handler evaluates
`f'... {response.status_code}'` with the local `response` never
assigned (the `requests.get` call is what raised), so the function
raises `UnboundLocalError`, not `APIRequestError`.  On a non-200 status
it raises `APIRequestError`; on a 200 status it returns
`response.json()`, whose decode error propagates unconverted. -/
def get_api_answer (timestamp : Int) (http : HttpResult) : Except Exc Response :=
  match http with
  | .transportFailure =>
      .error (.UnboundLocalError
        "local variable 'response' referenced before assignment")
  | .response statusCode body =>
      if statusCode ≠ 200 then
        .error (.APIRequestError ("API error. Status code: " ++ toString statusCode))
      else
        match body with
        | Option.none => .error (.JSONDecodeError "Expecting value")
        | some r => .ok r

/-- `check_response(response)`: the sequence of shape checks of
`homework.py` lines 97-110, in source order. -/
def check_response (response : Response) : Except Exc Unit :=
  match lookup response "homeworks" with
  | Option.none => .error (.ResponseTypeError "API response is of wrong type.")
  | some hv =>
    if (lookup response "current_date").isNone then
      .error (.ResponseTypeError "API response is of wrong type.")
    else
      match hv with
      | .vlist [] => .error (.EmptyResponseError "API response is empty.")
      | .vlist (hw0 :: _) =>
          match lookup hw0 "status" with
          | Option.none => .error (.ResponseTypeError "API response is of wrong type.")
          | some st =>
            if (lookup hw0 "homework_name").isNone then
              .error (.ResponseTypeError "API response is of wrong type.")
            else if (lookup HOMEWORK_VERDICTS st).isNone then
              .error (.ResponseTypeError "API response is of wrong type.")
            else .ok ()
      | _ => .error (.ResponseTypeError "API response is of wrong type.")

/-- `parse_status(homework)`: reads `homework['homework_name']`, then
`HOMEWORK_VERDICTS[homework['status']]`; any `KeyError` becomes
`ResponseTypeError`. -/
def parse_status (homework : Record) : Except Exc String :=
  match lookup homework "homework_name" with
  | Option.none => .error (.ResponseTypeError "API response is of wrong type.")
  | some homework_name =>
    match lookup homework "status" with
    | Option.none => .error (.ResponseTypeError "API response is of wrong type.")
    | some st =>
      match lookup HOMEWORK_VERDICTS st with
      | Option.none => .error (.ResponseTypeError "API response is of wrong type.")
      | some verdict =>
          .ok ("Изменился статус проверки работы \"" ++ homework_name
               ++ "\". " ++ verdict)

/-- The generator `(parse_status(hw) for hw in homeworks)` as consumed
by `str.join`: records are formatted left to right and the first raised
exception propagates. -/
def parseAll : List Record → Except Exc (List String)
  | [] => .ok []
  | hw :: rest =>
    match parse_status hw with
    | .error e => .error e
    | .ok s =>
      match parseAll rest with
      | .error e => .error e
      | .ok ss => .ok (s :: ss)

/-- `'\n'.join(parse_status(hw) for hw in homeworks)`. -/
def format_message (homeworks : List Record) : Except Exc String :=
  match parseAll homeworks with
  | .error e => .error e
  | .ok parts => .ok (String.intercalate "\n" parts)

/-- `response['homeworks']` as a list of records.  Only used by the
loop body after `check_response` has succeeded, which guarantees the
key is present and the value is a list; the default branch is
unreachable there. -/
def homeworks_of (response : Response) : List Record :=
  match lookup response "homeworks" with
  | some (.vlist hws) => hws
  | _ => []

/-- Observable startup actions of `main()` before (or instead of) the
polling loop. -/
inductive Event where
  | logCritical : Event
  | exitProcess : Nat → Event
  | constructBot : Event
  | networkCall : Event
  | enterLoop : Event
  deriving DecidableEq, Repr

/-- The startup prefix of `main()`: `check_tokens()` is called first;
an `ImproperlyConfigured` failure is logged at critical level and the
process exits with code 1; otherwise `telegram.Bot(...)` is constructed
and the `while True` loop is entered. -/
def main_startup (practicumToken telegramToken telegramChatId : Option String) :
    List Event :=
  match check_tokens practicumToken telegramToken telegramChatId with
  | .error _ => [.logCritical, .exitProcess 1]
  | .ok _ => [.constructBot, .enterLoop]

/-- The environment one loop iteration interacts with: the value of
`time.time()` at the top of the iteration, the outcome of the HTTP
exchange, and whether the Telegram delivery succeeds. -/
structure Env where
  clock : Int
  http : HttpResult
  deliveryOk : Bool
  deriving DecidableEq, Repr

/-- The `try` block of the loop body up to the point where the message
is built: fetch, validate, format.  Returns the success message or the
exception that reached the `except` clauses. -/
def run_body (env : Env) : Except Exc String :=
  match get_api_answer env.clock env.http with
  | .error e => .error e
  | .ok response =>
    match check_response response with
    | .error e => .error e
    | .ok _ => format_message (homeworks_of response)

/-- The `except` clauses of the loop body: given the previous
`is_api_error` flag and the outcome of the `try` block, return the new
flag value and whether `send_message` is invoked this iteration.
Success: flag cleared, message sent.  `BaseAPIError`: flag set, message
sent only if the flag was clear.  `EmptyResponseError`: flag untouched,
nothing sent.  Any other exception: flag untouched, message sent. -/
def branch_outcome (is_api_error : Bool) (env : Env) : Bool × Bool :=
  match run_body env with
  | .ok _ => (false, true)
  | .error e =>
    if e.isBaseAPIError then (true, !is_api_error)
    else if e.isEmptyResponseError then (is_api_error, false)
    else (is_api_error, true)

/-- Observable outcome of one full loop iteration. -/
structure IterResult where
  is_api_error : Bool
  notified : Bool
  sleep : Nat
  fetchTimestamp : Int
  deriving DecidableEq, Repr

/-- One iteration of the `while True` loop: computes
`timestamp = int(time.time())`, runs the body and except clauses, and
the `finally` block sleeps `10 * 60` seconds on every path. -/
def loop_iteration (is_api_error : Bool) (env : Env) : IterResult :=
  { is_api_error := (branch_outcome is_api_error env).1,
    notified := (branch_outcome is_api_error env).2,
    sleep := 10 * 60,
    fetchTimestamp := env.clock }

/-- Run the loop over a finite list of iteration environments,
threading the `is_api_error` flag. -/
def run_loop : Bool → List Env → List IterResult
  | _, [] => []
  | flag, env :: rest =>
    let r := loop_iteration flag env
    r :: run_loop r.is_api_error rest

/-- Number of iterations in a run that invoked `send_message`. -/
def notifCount (rs : List IterResult) : Nat :=
  (rs.filter (fun r => r.notified)).length

/-- The iteration's `try` block ends in the `except BaseAPIError`
clause. -/
def isApiFailureEnv (env : Env) : Bool :=
  match run_body env with
  | .error e => e.isBaseAPIError
  | .ok _ => false

/-- The iteration's `try` block completes without an exception. -/
def isSuccessEnv (env : Env) : Bool :=
  match run_body env with
  | .ok _ => true
  | .error _ => false

/-- `sub` occurs as a contiguous substring of `s`. -/
def strContains (s sub : String) : Prop :=
  ∃ pre post, s.data = pre ++ sub.data ++ post

/-! ### Concrete fixtures used by witnesses and counterexamples -/

/-- A well-formed homework record. -/
def hwApproved : Record := [("homework_name", "hw1"), ("status", "approved")]

/-- A record whose `status` is not a key of `HOMEWORK_VERDICTS`. -/
def hwUnknown : Record := [("homework_name", "hw2"), ("status", "retracted")]

/-- A well-formed API response with watermark `current_date = 1000`. -/
def respOk : Response :=
  [("homeworks", .vlist [hwApproved]), ("current_date", .vint 1000)]

/-- A response whose second homework record has an unknown status. -/
def respBadSecond : Response :=
  [("homeworks", .vlist [hwApproved, hwUnknown]), ("current_date", .vint 1000)]

/-- A successful iteration environment (clock 500). -/
def envSuccess : Env :=
  { clock := 500, http := .response 200 (some respOk), deliveryOk := true }

/-- A successful iteration whose Telegram delivery fails (clock 500). -/
def envSuccessNoDelivery : Env :=
  { clock := 500, http := .response 200 (some respOk), deliveryOk := false }

/-- An iteration hitting HTTP status 503 (clock 2000). -/
def envFail503 : Env :=
  { clock := 2000, http := .response 503 (some respOk), deliveryOk := true }

/-- A second consecutive 503 iteration (clock 3000). -/
def envFail503b : Env :=
  { clock := 3000, http := .response 503 (some respOk), deliveryOk := true }

/-! ### Helper lemmas -/

/-- Every exception `parse_status` raises is the `ResponseTypeError`
shape error. -/
lemma parse_status_error_shape (hw : Record) (e : Exc)
    (h : parse_status hw = .error e) :
    e = .ResponseTypeError "API response is of wrong type." := by
  unfold parse_status at h
  split at h
  · exact (Except.error.inj h).symm
  · split at h
    · exact (Except.error.inj h).symm
    · split at h
      · exact (Except.error.inj h).symm
      · exact absurd h (by simp)

/-- If some record of the batch fails to format, `parseAll` raises, and
what it raises is in the `BaseAPIError` family. -/
lemma parseAll_error_of_mem (l : List Record)
    (h : ∃ hw ∈ l, ∃ e, parse_status hw = .error e) :
    ∃ e, parseAll l = .error e ∧ e.isBaseAPIError = true := by
  induction l with
  | nil => obtain ⟨hw, hmem, _⟩ := h; exact absurd hmem (List.not_mem_nil hw)
  | cons x xs ih =>
    obtain ⟨hw, hmem, e, he⟩ := h
    cases hx : parse_status x with
    | error ex =>
      refine ⟨ex, ?_, ?_⟩
      · unfold parseAll; rw [hx]
      · rw [parse_status_error_shape x ex hx]; rfl
    | ok s =>
      have hmem' : hw ∈ xs := by
        rcases List.mem_cons.mp hmem with rfl | h'
        · rw [hx] at he; exact absurd he (by simp)
        · exact h'
      obtain ⟨e', he', hb⟩ := ih ⟨hw, hmem', e, he⟩
      refine ⟨e', ?_, hb⟩
      unfold parseAll
      rw [hx, he']

/-- An iteration whose body raises a `BaseAPIError` sets the flag and
notifies exactly when the flag was previously clear. -/
lemma branch_outcome_api (flag : Bool) (env : Env)
    (h : isApiFailureEnv env = true) :
    branch_outcome flag env = (true, !flag) := by
  unfold isApiFailureEnv at h
  unfold branch_outcome
  cases hrb : run_body env with
  | ok v => rw [hrb] at h; exact absurd h (by simp)
  | error e =>
    rw [hrb] at h
    simp only [if_pos h]

/-- An iteration whose body completes clears the flag and notifies. -/
lemma branch_outcome_success (flag : Bool) (env : Env)
    (h : isSuccessEnv env = true) :
    branch_outcome flag env = (false, true) := by
  unfold isSuccessEnv at h
  unfold branch_outcome
  cases hrb : run_body env with
  | ok v => rfl
  | error e => rw [hrb] at h; exact absurd h (by simp)

/-- Unfolding `notifCount` over a cons cell. -/
lemma notifCount_cons (r : IterResult) (rs : List IterResult) :
    notifCount (r :: rs) = (if r.notified then 1 else 0) + notifCount rs := by
  unfold notifCount
  rw [List.filter_cons]
  split
  · simp [Nat.add_comm]
  · simp

/-- With the flag already set, a run made only of `BaseAPIError`
iterations sends nothing. -/
lemma run_loop_api_all_set (envs : List Env)
    (h : ∀ env ∈ envs, isApiFailureEnv env = true) :
    notifCount (run_loop true envs) = 0 := by
  induction envs with
  | nil => rfl
  | cons env rest ih =>
    have hb := branch_outcome_api true env (h env (List.mem_cons_self env rest))
    have ih' := ih (fun e he => h e (List.mem_cons_of_mem env he))
    unfold run_loop loop_iteration
    rw [notifCount_cons]
    simp [hb, ih']

/-- From a clear flag, a nonempty run made only of `BaseAPIError`
iterations sends exactly one notification: the first iteration
notifies, sets the flag, and every later one is suppressed. -/
lemma run_loop_api_streak (envs : List Env) (hne : envs ≠ [])
    (h : ∀ env ∈ envs, isApiFailureEnv env = true) :
    notifCount (run_loop false envs) = 1 := by
  cases envs with
  | nil => exact absurd rfl hne
  | cons env rest =>
    have hb := branch_outcome_api false env (h env (List.mem_cons_self env rest))
    have hrest := run_loop_api_all_set rest
      (fun e he => h e (List.mem_cons_of_mem env he))
    unfold run_loop loop_iteration
    rw [notifCount_cons]
    simp [hb, hrest]

/-! ### Claim theorems -/

/-- C1: a streak of consecutive API-classified failures (`BaseAPIError`:
request errors and shape errors) produces exactly one notification, sent
on the transition from the clear-flag state to the set-flag state;
further failures of the streak send none; a successful iteration clears
the flag, after which a new failure streak again sends exactly one. -/
theorem C1_error_streak_single_notification (envs : List Env) (fenv senv : Env)
    (flag : Bool)
    (hapi : ∀ env ∈ envs, isApiFailureEnv env = true)
    (hne : envs ≠ [])
    (hf : isApiFailureEnv fenv = true)
    (hs : isSuccessEnv senv = true) :
    notifCount (run_loop false envs) = 1
    ∧ (loop_iteration false fenv).notified = true
    ∧ (loop_iteration true fenv).notified = false
    ∧ (loop_iteration flag senv).is_api_error = false
    ∧ notifCount (run_loop (loop_iteration flag senv).is_api_error envs) = 1 := by
  have hclear : (loop_iteration flag senv).is_api_error = false := by
    unfold loop_iteration
    rw [branch_outcome_success flag senv hs]
  refine ⟨run_loop_api_streak envs hne hapi, ?_, ?_, hclear, ?_⟩
  · unfold loop_iteration; rw [branch_outcome_api false fenv hf]; rfl
  · unfold loop_iteration; rw [branch_outcome_api true fenv hf]; rfl
  · rw [hclear]; exact run_loop_api_streak envs hne hapi

/-- Witness for C1: two consecutive 503 iterations notify once from a
clear flag, and once again right after a successful iteration. -/
theorem C1_error_streak_single_notification_witness :
    notifCount (run_loop false [envFail503, envFail503b]) = 1
    ∧ notifCount (run_loop (loop_iteration true envSuccess).is_api_error
        [envFail503, envFail503b]) = 1 := by
  have h := C1_error_streak_single_notification [envFail503, envFail503b]
    envFail503 envSuccess true
    (by intro e he; fin_cases he <;> rfl)
    (List.cons_ne_nil envFail503 [envFail503b]) rfl rfl
  exact ⟨h.1, h.2.2.2.2⟩

/-- C2 evidence: the fetcher's actual exceptions.  A transport failure
makes the except-handler evaluate `response.status_code` with the local
`response` unassigned, so `UnboundLocalError` (not `APIRequestError`,
not in the `BaseAPIError` family) escapes; a non-200 status does raise
`APIRequestError`; a 200 response with an invalid JSON body raises the
JSON decode error, which is not the `ResponseTypeError` shape error and
not in the `BaseAPIError` family. -/
theorem C2_fetcher_exceptions :
    get_api_answer 0 .transportFailure =
      .error (.UnboundLocalError
        "local variable 'response' referenced before assignment")
    ∧ (Exc.UnboundLocalError
        "local variable 'response' referenced before assignment").isBaseAPIError
      = false
    ∧ get_api_answer 0 (.response 503 (some respOk)) =
      .error (.APIRequestError "API error. Status code: 503")
    ∧ get_api_answer 0 (.response 200 Option.none) =
      .error (.JSONDecodeError "Expecting value")
    ∧ (Exc.JSONDecodeError "Expecting value").isResponseTypeError = false
    ∧ (Exc.JSONDecodeError "Expecting value").isBaseAPIError = false :=
  ⟨rfl, rfl, rfl, rfl, rfl, rfl⟩

/-- C3 counterexample: the loop computes `timestamp = int(time.time())`
each iteration.  After a successful response carrying
`current_date = 1000`, the next fetch uses the wall clock (2000 here),
not the watermark 1000. -/
theorem C3_counterexample_watermark_unused :
    isSuccessEnv envSuccess = true
    ∧ lookup respOk "current_date" = some (.vint 1000)
    ∧ (loop_iteration (loop_iteration false envSuccess).is_api_error
        envFail503).fetchTimestamp = 2000
    ∧ (2000 : Int) ≠ 1000 :=
  ⟨rfl, rfl, rfl, by decide⟩

/-- C3 amended: whatever the previous iteration did, the next fetch's
`from_date` is the wall-clock value read at the top of that iteration;
the previous response's `current_date` plays no role. -/
theorem C3_amended_fetch_uses_wall_clock (flag : Bool) (envPrev env : Env) :
    (loop_iteration (loop_iteration flag envPrev).is_api_error
      env).fetchTimestamp = env.clock := rfl

/-- C6: if any of the three credentials is missing or empty, `main`
logs a critical error and exits with status 1, without constructing the
bot client or issuing any network call; with all three non-empty the
token check succeeds and the loop is entered. -/
theorem C6_token_validation (p t c : Option String) :
    ((truthy p && truthy t && truthy c) = false →
      main_startup p t c = [.logCritical, .exitProcess 1]
      ∧ Event.constructBot ∉ main_startup p t c
      ∧ Event.networkCall ∉ main_startup p t c)
    ∧ ((truthy p && truthy t && truthy c) = true →
      check_tokens p t c = .ok ()
      ∧ main_startup p t c = [.constructBot, .enterLoop]) := by
  constructor
  · intro h
    have hm : main_startup p t c = [.logCritical, .exitProcess 1] := by
      unfold main_startup check_tokens
      simp [h]
    refine ⟨hm, ?_, ?_⟩ <;> rw [hm] <;> simp
  · intro h
    have hc : check_tokens p t c = .ok () := by
      unfold check_tokens
      simp [h]
    refine ⟨hc, ?_⟩
    unfold main_startup
    rw [hc]

/-- Witness for C6: a missing API token is fatal; three non-empty
credentials start the loop. -/
theorem C6_token_validation_witness :
    main_startup Option.none (some "b") (some "c") =
      [.logCritical, .exitProcess 1]
    ∧ main_startup (some "a") (some "b") (some "c") =
      [.constructBot, .enterLoop] :=
  ⟨((C6_token_validation Option.none (some "b") (some "c")).1 rfl).1,
   ((C6_token_validation (some "a") (some "b") (some "c")).2 rfl).2⟩

/-- C7: every loop iteration, whatever its outcome path (success,
`BaseAPIError`, `EmptyResponseError`, or any other exception), sleeps
the fixed `10 * 60 = RETRY_PERIOD` seconds in the `finally` block. -/
theorem C7_unconditional_sleep (flag : Bool) (env : Env) :
    (loop_iteration flag env).sleep = RETRY_PERIOD := rfl

/-- C8: `send_message` never lets an exception escape; it logs at debug
level on successful delivery and logs an error on failed delivery,
returning normally in both cases. -/
theorem C8_send_message_never_raises (message : String) :
    (∀ deliveryOk, (send_message deliveryOk message).raised = false)
    ∧ (send_message true message).log = .debug ("Message sent: " ++ message)
    ∧ (send_message false message).log = .error "Can not send message" := by
  refine ⟨fun d => ?_, rfl, rfl⟩
  cases d <;> rfl

/-- C10: a successful iteration clears the error-streak flag regardless
of whether the notification is delivered (the assignment precedes the
`send_message` call and delivery failures are swallowed), so an
API-classified failure right after such an iteration notifies. -/
theorem C10_flag_cleared_despite_delivery_failure (flag : Bool)
    (senv fenv : Env)
    (hs : isSuccessEnv senv = true)
    (hf : isApiFailureEnv fenv = true) :
    (loop_iteration flag senv).is_api_error = false
    ∧ (loop_iteration flag { senv with deliveryOk := false }).is_api_error
      = false
    ∧ (loop_iteration (loop_iteration flag
        { senv with deliveryOk := false }).is_api_error fenv).notified
      = true := by
  have hs' : isSuccessEnv { senv with deliveryOk := false } = true := hs
  have h1 : (loop_iteration flag senv).is_api_error = false := by
    unfold loop_iteration
    rw [branch_outcome_success flag senv hs]
  have h2 : (loop_iteration flag
      { senv with deliveryOk := false }).is_api_error = false := by
    unfold loop_iteration
    rw [branch_outcome_success flag { senv with deliveryOk := false } hs']
  refine ⟨h1, h2, ?_⟩
  rw [h2]
  unfold loop_iteration
  rw [branch_outcome_api false fenv hf]
  rfl

/-- Witness for C10: a success whose Telegram delivery fails still
leaves the flag clear, and the following 503 failure notifies. -/
theorem C10_flag_cleared_despite_delivery_failure_witness :
    (loop_iteration false envSuccessNoDelivery).is_api_error = false
    ∧ (loop_iteration (loop_iteration false
        envSuccessNoDelivery).is_api_error envFail503).notified = true := by
  have h := C10_flag_cleared_despite_delivery_failure false
    { envSuccessNoDelivery with deliveryOk := true } envFail503 rfl rfl
  exact ⟨h.2.1, h.2.2⟩

/-- C4: for a record carrying a `homework_name` and a `status` that is
a key of `HOMEWORK_VERDICTS`, `parse_status` returns a message
containing the name and the verdict phrase; for a record whose `status`
value is not a key of the table, it raises the `ResponseTypeError`
shape error. -/
theorem C4_parse_status_contract (hw : Record) :
    (∀ name st verdict,
      lookup hw "homework_name" = some name →
      lookup hw "status" = some st →
      lookup HOMEWORK_VERDICTS st = some verdict →
      ∃ msg, parse_status hw = .ok msg
        ∧ strContains msg name ∧ strContains msg verdict)
    ∧ (∀ st, lookup hw "status" = some st →
      lookup HOMEWORK_VERDICTS st = Option.none →
      parse_status hw =
        .error (.ResponseTypeError "API response is of wrong type.")) := by
  constructor
  · intro name st verdict h1 h2 h3
    refine ⟨"Изменился статус проверки работы \"" ++ name ++ "\". " ++ verdict,
      ?_, ?_, ?_⟩
    · simp only [parse_status, h1, h2, h3]
    · exact ⟨"Изменился статус проверки работы \"".data,
        ("\". " ++ verdict).data,
        by simp [String.data_append, List.append_assoc]⟩
    · exact ⟨("Изменился статус проверки работы \"" ++ name ++ "\". ").data,
        ([] : List Char),
        by simp [String.data_append, List.append_assoc]⟩
  · intro st h2 h3
    unfold parse_status
    split
    · rfl
    · simp [h2, h3]

/-- Witness for C4: the `approved` record formats, the `retracted`
record raises the shape error. -/
theorem C4_parse_status_contract_witness :
    (parse_status hwApproved).isOk = true
    ∧ parse_status hwUnknown =
      .error (.ResponseTypeError "API response is of wrong type.") := by
  obtain ⟨msg, hm, -, -⟩ := (C4_parse_status_contract hwApproved).1 "hw1"
    "approved" "Работа проверена: ревьюеру всё понравилось. Ура!" rfl rfl rfl
  exact ⟨by rw [hm]; rfl,
    (C4_parse_status_contract hwUnknown).2 "retracted" rfl rfl⟩

/-- C5: a response missing `homeworks` or `current_date`, or whose
`homeworks` value is not a list, fails `check_response` with the
`ResponseTypeError` shape error; a response with both keys and an empty
`homeworks` list raises `EmptyResponseError` instead, which is not in
the `BaseAPIError` family. -/
theorem C5_check_response_contract (response : Response) :
    ((lookup response "homeworks" = Option.none
      ∨ lookup response "current_date" = Option.none
      ∨ (∃ hv, lookup response "homeworks" = some hv ∧ hv.isList = false)) →
      check_response response =
        .error (.ResponseTypeError "API response is of wrong type."))
    ∧ (∀ v, lookup response "current_date" = some v →
      lookup response "homeworks" = some (.vlist []) →
      check_response response =
        .error (.EmptyResponseError "API response is empty.")
      ∧ (Exc.EmptyResponseError "API response is empty.").isBaseAPIError
        = false) := by
  constructor
  · intro h
    rcases h with h | h | ⟨hv, hl, hnl⟩
    · simp [check_response, h]
    · unfold check_response
      split
      · rfl
      · rw [h]; rfl
    · unfold check_response
      rw [hl]
      rcases hv with n | s | l
      · cases hcd : lookup response "current_date" <;> rfl
      · cases hcd : lookup response "current_date" <;> rfl
      · exact absurd hnl (by simp [RVal.isList])
  · intro v h1 h2
    refine ⟨?_, rfl⟩
    unfold check_response
    rw [h2, h1]
    rfl

/-- Witness for C5: a response missing `homeworks` is a shape error; a
response with an empty `homeworks` list is the empty-result signal. -/
theorem C5_check_response_contract_witness :
    check_response [("current_date", RVal.vint 1000)] =
      .error (.ResponseTypeError "API response is of wrong type.")
    ∧ check_response
        [("homeworks", RVal.vlist []), ("current_date", RVal.vint 1000)] =
      .error (.EmptyResponseError "API response is empty.") :=
  ⟨(C5_check_response_contract [("current_date", RVal.vint 1000)]).1
      (Or.inl rfl),
   ((C5_check_response_contract
      [("homeworks", RVal.vlist []), ("current_date", RVal.vint 1000)]).2
      (RVal.vint 1000) rfl rfl).1⟩

/-- A record missing `homework_name` or `status`, or with a status
absent from the verdict table, fails `parse_status`. -/
lemma parse_status_fails_of_bad (hw : Record)
    (h : lookup hw "homework_name" = Option.none
      ∨ lookup hw "status" = Option.none
      ∨ ∃ st, lookup hw "status" = some st
          ∧ lookup HOMEWORK_VERDICTS st = Option.none) :
    ∃ e, parse_status hw = .error e := by
  unfold parse_status
  rcases h with h | h | ⟨st, h1, h2⟩
  · rw [h]; exact ⟨_, rfl⟩
  · split
    · exact ⟨_, rfl⟩
    · simp [h]
  · split
    · exact ⟨_, rfl⟩
    · simp [h1, h2]

/-- C9: `check_response` inspects only the first homework record.  With
a valid first record, validation succeeds no matter how malformed the
later records are; the per-record formatting of the batch then raises a
`BaseAPIError`-family shape error, so the whole iteration is classified
as an API failure. -/
theorem C9_only_first_record_checked (response : Response) (hw0 : Record)
    (rest : List Record)
    (hhw : lookup response "homeworks" = some (.vlist (hw0 :: rest)))
    (hcd : ∃ v, lookup response "current_date" = some v)
    (hst : ∃ st, lookup hw0 "status" = some st
        ∧ ∃ verdict, lookup HOMEWORK_VERDICTS st = some verdict)
    (hname : ∃ name, lookup hw0 "homework_name" = some name)
    (hbad : ∃ hw ∈ rest,
      lookup hw "homework_name" = Option.none
      ∨ lookup hw "status" = Option.none
      ∨ ∃ st, lookup hw "status" = some st
          ∧ lookup HOMEWORK_VERDICTS st = Option.none) :
    check_response response = .ok ()
    ∧ (∃ e, format_message (homeworks_of response) = .error e
        ∧ e.isBaseAPIError = true)
    ∧ (∀ clock deliveryOk,
        isApiFailureEnv ⟨clock, .response 200 (some response), deliveryOk⟩
          = true) := by
  obtain ⟨v, hv⟩ := hcd
  obtain ⟨st, hst1, verdict, hst2⟩ := hst
  obtain ⟨name, hn⟩ := hname
  have hcheck : check_response response = .ok () := by
    simp only [check_response, hhw, hv, hst1, hn, hst2, Option.isNone_some,
      Bool.false_eq_true, if_false]
  have hho : homeworks_of response = hw0 :: rest := by
    unfold homeworks_of
    rw [hhw]
  obtain ⟨hw, hmem, hb⟩ := hbad
  obtain ⟨e, hpe, hbase⟩ := parseAll_error_of_mem (hw0 :: rest)
    ⟨hw, List.mem_cons_of_mem hw0 hmem, parse_status_fails_of_bad hw hb⟩
  have hfm : format_message (homeworks_of response) = .error e := by
    rw [hho]
    unfold format_message
    rw [hpe]
  refine ⟨hcheck, ⟨e, hfm, hbase⟩, ?_⟩
  intro clock deliveryOk
  have hga : get_api_answer clock (.response 200 (some response)) =
      .ok response := rfl
  have hrb : run_body ⟨clock, .response 200 (some response), deliveryOk⟩
      = .error e := by
    unfold run_body
    simp only [hga, hcheck, hfm]
  unfold isApiFailureEnv
  simp only [hrb, hbase]

/-- Witness for C9: a response whose second record has the unknown
status `retracted` passes validation, then fails batch formatting with
the shape error, which the loop classifies as an API failure. -/
theorem C9_only_first_record_checked_witness :
    check_response respBadSecond = .ok ()
    ∧ format_message (homeworks_of respBadSecond) =
      .error (.ResponseTypeError "API response is of wrong type.")
    ∧ isApiFailureEnv ⟨0, .response 200 (some respBadSecond), true⟩
      = true := by
  have h := C9_only_first_record_checked respBadSecond hwApproved [hwUnknown]
    rfl ⟨RVal.vint 1000, rfl⟩
    ⟨"approved", rfl, "Работа проверена: ревьюеру всё понравилось. Ура!", rfl⟩
    ⟨"hw1", rfl⟩
    ⟨hwUnknown, List.mem_cons_self hwUnknown [],
      Or.inr (Or.inr ⟨"retracted", rfl, rfl⟩)⟩
  exact ⟨h.1, by rfl, h.2.2 0 true⟩

end HomeworkBot
